import Mathlib

/-!
Verification of the vertex-ai-proxy request-dispatch and streaming-translation
engine (src/index.ts, src/regions.ts).

The TypeScript source is shallowly embedded below.  Pure helpers become Lean
functions with the source's names; the stateful handlers become functions from
an explicit oracle describing upstream behaviour to the sequence of values
written on the client connection.  The streaming handlers are embedded at the
level of parsed upstream SSE events: the byte-level line buffering in the
source delivers exactly the parsed `data:` events, in order, to the translation
logic modelled here.  Recursion of the dispatcher (model fallback) is embedded
with an explicit fuel parameter; returning `none` models non-termination of
the source within the given fuel.
-/

namespace VertexProxy

/-- Association-list lookup over String keys, modelling JS object key access
(`obj[key]`).  First binding wins, matching unique-key JS objects. -/
def alookup {α : Type} : List (String × α) → String → Option α
  | [], _ => none
  | (k', v) :: rest, k => if k' = k then some v else alookup rest k

/-- JS truthiness-filtered lookup for string-valued objects:
`if (obj[key]) ...` treats an empty-string value as absent. -/
def truthyLookup (l : List (String × String)) (k : String) : Option String :=
  match alookup l k with
  | some v => if v = "" then none else some v
  | none => none

/-- JS truthiness-filtered lookup for the fallback-chain table:
`if (fallbacks && fallbacks.length > 0)` treats an empty list as absent. -/
def truthyChains (l : List (String × List String)) (k : String) :
    Option (List String) :=
  match alookup l k with
  | some [] => none
  | some chain => some chain
  | none => none

/-- Is `pat` a prefix of `s` (on character lists)? -/
def listPrefix : List Char → List Char → Bool
  | [], _ => true
  | _ :: _, [] => false
  | a :: as, b :: bs => a == b && listPrefix as bs

/-- Is `pat` an infix of `s` (on character lists)? -/
def listInfix : List Char → List Char → Bool
  | pat, [] => listPrefix pat []
  | pat, c :: rest =>
    listPrefix pat (c :: rest) || listInfix pat rest

/-- JS String.prototype.includes. -/
def strIncludes (s pat : String) : Bool := listInfix pat.data s.data

/-- JS String.prototype.startsWith, over character lists. -/
def strStartsWith (s pre : String) : Bool := listPrefix pre.data s.data

/-- JS String.prototype.includes for a single character. -/
def strContainsChar (s : String) (c : Char) : Bool :=
  s.data.any (fun x => x == c)

-- ============================================================================
-- Model catalog (src/index.ts, MODEL_CATALOG)
-- ============================================================================

/-- ModelSpec record from src/index.ts.  Prices are per-million-token rational
dollar amounts. -/
structure ModelSpec where
  id : String
  name : String
  provider : String
  contextWindow : Nat
  maxTokens : Nat
  inputPrice : ℚ
  outputPrice : ℚ
  regions : List String
  capabilities : List String
deriving DecidableEq

/-- MODEL_CATALOG from src/index.ts, in source insertion order. -/
def MODEL_CATALOG : List (String × ModelSpec) := [
  ("claude-opus-4-5@20251101",
    { id := "claude-opus-4-5@20251101", name := "Claude Opus 4.5",
      provider := "anthropic", contextWindow := 200000, maxTokens := 64000,
      inputPrice := 15, outputPrice := 75,
      regions := ["us-east5", "europe-west1", "asia-southeast1", "global"],
      capabilities := ["text", "vision", "tools"] }),
  ("claude-sonnet-4-5@20250929",
    { id := "claude-sonnet-4-5@20250929", name := "Claude Sonnet 4.5",
      provider := "anthropic", contextWindow := 200000, maxTokens := 64000,
      inputPrice := 3, outputPrice := 15,
      regions := ["us-east5", "europe-west1", "asia-southeast1", "global"],
      capabilities := ["text", "vision", "tools"] }),
  ("claude-haiku-4-5@20251001",
    { id := "claude-haiku-4-5@20251001", name := "Claude Haiku 4.5",
      provider := "anthropic", contextWindow := 200000, maxTokens := 64000,
      inputPrice := 1/4, outputPrice := 5/4,
      regions := ["us-east5", "europe-west1", "asia-southeast1", "global"],
      capabilities := ["text", "vision", "tools"] }),
  ("gemini-3-pro-image-preview",
    { id := "gemini-3-pro-image-preview", name := "Gemini 3 Pro Image",
      provider := "google", contextWindow := 65536, maxTokens := 32768,
      inputPrice := 5/2, outputPrice := 15,
      regions := ["global"],
      capabilities := ["text", "vision", "image-generation"] }),
  ("gemini-3-pro-preview",
    { id := "gemini-3-pro-preview", name := "Gemini 3 Pro",
      provider := "google", contextWindow := 1048576, maxTokens := 65536,
      inputPrice := 5/2, outputPrice := 15,
      regions := ["global"],
      capabilities := ["text", "vision", "audio", "video"] }),
  ("gemini-2.5-pro",
    { id := "gemini-2.5-pro", name := "Gemini 2.5 Pro",
      provider := "google", contextWindow := 1000000, maxTokens := 64000,
      inputPrice := 5/4, outputPrice := 5,
      regions := ["us-central1", "europe-west4"],
      capabilities := ["text", "vision"] }),
  ("gemini-2.5-flash",
    { id := "gemini-2.5-flash", name := "Gemini 2.5 Flash",
      provider := "google", contextWindow := 1000000, maxTokens := 64000,
      inputPrice := 3/20, outputPrice := 3/5,
      regions := ["us-central1", "europe-west4"],
      capabilities := ["text", "vision"] }),
  ("gemini-2.5-flash-lite",
    { id := "gemini-2.5-flash-lite", name := "Gemini 2.5 Flash Lite",
      provider := "google", contextWindow := 1000000, maxTokens := 64000,
      inputPrice := 3/40, outputPrice := 3/10,
      regions := ["us-central1", "europe-west4"],
      capabilities := ["text"] }),
  ("imagen-4.0-generate-001",
    { id := "imagen-4.0-generate-001", name := "Imagen 4 Generate",
      provider := "imagen", contextWindow := 0, maxTokens := 0,
      inputPrice := 1/25, outputPrice := 0,
      regions := ["us-central1"],
      capabilities := ["image-generation"] }),
  ("imagen-4.0-fast-generate-001",
    { id := "imagen-4.0-fast-generate-001", name := "Imagen 4 Fast",
      provider := "imagen", contextWindow := 0, maxTokens := 0,
      inputPrice := 1/50, outputPrice := 0,
      regions := ["us-central1"],
      capabilities := ["image-generation"] }),
  ("imagen-4.0-ultra-generate-001",
    { id := "imagen-4.0-ultra-generate-001", name := "Imagen 4 Ultra",
      provider := "imagen", contextWindow := 0, maxTokens := 0,
      inputPrice := 2/25, outputPrice := 0,
      regions := ["us-central1"],
      capabilities := ["image-generation"] })]

-- ============================================================================
-- Configuration (src/index.ts, Config / loadConfig)
-- ============================================================================

/-- Config record from src/index.ts. -/
structure Config where
  project_id : String
  default_region : String
  google_region : String
  model_aliases : List (String × String)
  fallback_chains : List (String × List String)
  auto_truncate : Bool
  reserve_output_tokens : Nat
deriving DecidableEq

/-- The compiled-in default configuration from loadConfig (environment
overrides absent). -/
def defaultConfig : Config :=
  { project_id := ""
    default_region := "us-east5"
    google_region := "us-central1"
    model_aliases := [
      ("gpt-4", "claude-opus-4-5@20251101"),
      ("gpt-4-turbo", "claude-sonnet-4-5@20250929"),
      ("gpt-4o", "claude-sonnet-4-5@20250929"),
      ("gpt-4o-mini", "claude-haiku-4-5@20251001"),
      ("gpt-3.5-turbo", "claude-haiku-4-5@20251001"),
      ("claude", "claude-opus-4-5@20251101"),
      ("claude-latest", "claude-opus-4-5@20251101"),
      ("opus", "claude-opus-4-5@20251101"),
      ("sonnet", "claude-sonnet-4-5@20250929"),
      ("haiku", "claude-haiku-4-5@20251001")]
    fallback_chains := []
    auto_truncate := true
    reserve_output_tokens := 4096 }

-- ============================================================================
-- Model resolution (src/index.ts, resolveModel / getModelSpec)
-- ============================================================================

/-- resolveModel from src/index.ts: alias table first (JS truthiness), then
catalog membership, then prefix match for versionless claude ids (first
catalog entry in insertion order), else the input unchanged. -/
def resolveModel (modelInput : String) (config : Config) : String :=
  match truthyLookup config.model_aliases modelInput with
  | some target => target
  | none =>
    if (alookup MODEL_CATALOG modelInput).isSome then
      modelInput
    else if strStartsWith modelInput "claude-" &&
        !(strContainsChar modelInput '@') then
      match MODEL_CATALOG.find? (fun p => strStartsWith p.1 modelInput) with
      | some (id, _) => id
      | none => modelInput
    else
      modelInput

/-- getModelSpec from src/index.ts. -/
def getModelSpec (modelId : String) : Option ModelSpec :=
  alookup MODEL_CATALOG modelId

/-- Provider selection in handleChatCompletions:
`modelSpec?.provider || 'anthropic'`. -/
def providerOf (modelId : String) : String :=
  match getModelSpec modelId with
  | some spec => spec.provider
  | none => "anthropic"

-- ============================================================================
-- Region planner (src/index.ts getRegionFallbackOrder, src/regions.ts cache)
-- ============================================================================

/-- ModelRegionInfo from src/regions.ts (fields not read by the planner are
omitted from the embedding). -/
structure ModelRegionInfo where
  availableRegions : List String
deriving DecidableEq

/-- RegionCache from src/regions.ts; the planner reads only the models map. -/
structure RegionCache where
  models : List (String × ModelRegionInfo)
deriving DecidableEq

/-- The global priority list from getRegionFallbackOrder. -/
def priorityOrder : List String := ["us-east5", "us-central1", "europe-west1"]

/-- One step of the second re-ordering loop:
`if (!ordered.includes(region)) ordered.push(region)`. -/
def addUnique (acc : List String) (r : String) : List String :=
  if acc.contains r then acc else acc ++ [r]

/-- Both loops of the re-ordering in getRegionFallbackOrder: priority regions
present in `rs` first (in priority order), then the remaining regions of `rs`
skipping any already pushed. -/
def orderRegions (rs : List String) : List String :=
  rs.foldl addUnique (priorityOrder.filter (fun r => rs.contains r))

/-- The static-catalog branch of getRegionFallbackOrder (cache miss). -/
def staticRegionOrder (modelId : String) : List String :=
  match alookup MODEL_CATALOG modelId with
  | none => priorityOrder
  | some spec => orderRegions spec.regions

/-- getRegionFallbackOrder from src/index.ts.  `loadRegionCache` performs file
IO in the source; the cache it returns (or `none`) is passed explicitly. -/
def getRegionFallbackOrder (cache : Option RegionCache) (modelId : String) :
    List String :=
  match cache with
  | some c =>
    match alookup c.models modelId with
    | some info =>
      if info.availableRegions.length > 0 then orderRegions info.availableRegions
      else staticRegionOrder modelId
    | none => staticRegionOrder modelId
  | none => staticRegionOrder modelId

-- ============================================================================
-- Message truncation (src/index.ts estimateTokens / truncateMessages)
-- ============================================================================

/-- ChatMessage with its content already in the string form the token
estimator sees (the source stringifies non-string content with
JSON.stringify before measuring). -/
structure ChatMessage where
  role : String
  content : String
deriving DecidableEq

/-- estimateTokens from src/index.ts: Math.ceil(length / 4). -/
def estimateTokens (text : String) : Nat := (text.length + 3) / 4

/-- The reverse scan over the earlier messages in truncateMessages: walk from
the last earlier message backwards, keeping messages while they fit and
stopping (with truncated = true) at the first overflow. -/
def keepEarlierRev (revEarlier : List ChatMessage) (totalTokens target : ℤ) :
    List ChatMessage × Bool :=
  match revEarlier with
  | [] => ([], false)
  | m :: rest =>
    let tokens : ℤ := estimateTokens m.content
    if totalTokens + tokens > target then ([], true)
    else
      let res := keepEarlierRev rest (totalTokens + tokens) target
      (res.1 ++ [m], res.2)

/-- truncateMessages from src/index.ts.  slice(-4) and slice(0, -4) become
drop / take with Nat clamping at zero; targetTokens is computed over ℤ since
reserveTokens may exceed maxTokens. -/
def truncateMessages (messages : List ChatMessage)
    (maxTokens reserveTokens : Nat) : List ChatMessage × Bool :=
  let target : ℤ := (maxTokens : ℤ) - (reserveTokens : ℤ)
  let lastMessages := messages.drop (messages.length - 4)
  let earlierMessages := messages.take (messages.length - 4)
  let total : ℤ :=
    (lastMessages.map (fun m => (estimateTokens m.content : ℤ))).sum
  let res := keepEarlierRev earlierMessages.reverse total target
  (res.1 ++ lastMessages, res.2)

-- ============================================================================
-- Failure classification (the three Anthropic dispatch paths)
-- ============================================================================

/-- An upstream failure as thrown by the handlers:
`\x7b status, message \x7d` for HTTP failures, a plain Error (no status) for
transport failures. -/
structure UpstreamError where
  status : Option Nat
  message : String
deriving DecidableEq

/-- Retry classification in handleAnthropicChatWithFallback (chat path). -/
def shouldRetryChat (e : UpstreamError) : Bool :=
  e.status == some 429 ||
  e.status == some 503 ||
  e.status == some 500 ||
  strIncludes e.message "capacity" ||
  strIncludes e.message "overloaded" ||
  strIncludes e.message "unavailable"

/-- Retry classification in handleAnthropicMessages (both the response check
and the catch block use this predicate). -/
def shouldRetryMessages (e : UpstreamError) : Bool :=
  e.status == some 429 ||
  e.status == some 503 ||
  e.status == some 500 ||
  strIncludes e.message "capacity" ||
  strIncludes e.message "overloaded"

/-- Retry classification in handleAnthropicCompletions (legacy completions). -/
def shouldRetryCompletions (e : UpstreamError) : Bool :=
  e.status == some 429 ||
  e.status == some 503 ||
  e.status == some 500 ||
  strIncludes e.message "capacity" ||
  strIncludes e.message "overloaded"

/-- The retryable class as the spec states it, for all three paths: status
429, 500, 503, or body containing capacity, overloaded, or unavailable. -/
def specRetryable (e : UpstreamError) : Bool :=
  e.status == some 429 ||
  e.status == some 500 ||
  e.status == some 503 ||
  strIncludes e.message "capacity" ||
  strIncludes e.message "overloaded" ||
  strIncludes e.message "unavailable"

-- ============================================================================
-- Streaming translator (handleAnthropicChat, stream branch)
-- ============================================================================

/-- Parsed upstream Anthropic SSE events, as distinguished by the translation
loop.  `other` stands for every parsed event the loop ignores. -/
inductive AnthropicEvent
  | contentBlockStartToolUse (toolId toolName : String)
  | inputJsonDelta (partialJson : String)
  | textDelta (text : String)
  | messageStop
  | other
deriving DecidableEq

/-- Outbound OpenAI SSE frames written by the streaming chat handler.  All
payload frames carry the per-response completion id. -/
inductive Frame
  | roleFrame (cid : String)
  | contentDelta (cid text : String)
  | toolCallStart (cid toolId toolName : String)
  | toolCallArgs (cid args : String)
  | finishChunk (cid finishReason : String)
  | doneSentinel
deriving DecidableEq

/-- Frames emitted inside the read loop for a single upstream event
(handleAnthropicChat lines 825-895): tool-use block start, tool-argument
delta, and text delta each produce one chunk; message_stop and everything
else produce none. -/
def emitForEvent (cid : String) : AnthropicEvent → List Frame
  | .contentBlockStartToolUse i n => [.toolCallStart cid i n]
  | .inputJsonDelta pj => [.toolCallArgs cid pj]
  | .textDelta t => [.contentDelta cid t]
  | .messageStop => []
  | .other => []

/-- Does this event set receivedMessageStop? -/
def isMessageStop : AnthropicEvent → Bool
  | .messageStop => true
  | _ => false

/-- The read loop of the streaming chat handler: per-event frames in upstream
order, threading the receivedMessageStop flag. -/
def processEvents (cid : String) :
    List AnthropicEvent → Bool → List Frame × Bool
  | [], flag => ([], flag)
  | e :: rest, flag =>
    let res := processEvents cid rest (isMessageStop e || flag)
    (emitForEvent cid e ++ res.1, res.2)

/-- The complete error-free streaming chat response (handleAnthropicChat,
stream branch): the initial role chunk, the loop output, then always one
`finish_reason:"stop"` chunk and one [DONE] sentinel.  Returns the frames
written and the final receivedMessageStop flag. -/
def streamChatRun (cid : String) (events : List AnthropicEvent) :
    List Frame × Bool :=
  let res := processEvents cid events false
  (Frame.roleFrame cid :: res.1 ++
    [Frame.finishChunk cid "stop", Frame.doneSentinel], res.2)

/-- One item written on the client connection: an SSE frame or a JSON error
body. -/
inductive WireItem
  | frame (f : Frame)
  | jsonErrorBody (status : Nat) (message etype : String) (code : Nat)
deriving DecidableEq

/-- Everything the streaming chat handler writes on a connection whose role
frame went out, as a function of the upstream events delivered before the
stream ended.  `midStreamError = true` models the read loop throwing after
those events: the catch at handleAnthropicChat lines 897-906 sees
headersSent, calls res.end() and returns, so nothing further is written, and
the outer catch in handleChatCompletions (lines 544-550) likewise only ends
the response when headers are sent. -/
def chatStreamWrites (cid : String) (events : List AnthropicEvent)
    (midStreamError : Bool) : List WireItem :=
  if midStreamError then
    (Frame.roleFrame cid :: (processEvents cid events false).1).map .frame
  else
    (streamChatRun cid events).1.map .frame

/-- Terminal frames: the finish_reason chunk and the [DONE] sentinel. -/
def isTerminalFrame : Frame → Bool
  | .finishChunk _ _ => true
  | .doneSentinel => true
  | _ => false

/-- Tool-call delta frames (opener or argument delta). -/
def isToolDeltaFrame : Frame → Bool
  | .toolCallStart _ _ _ => true
  | .toolCallArgs _ _ => true
  | _ => false

/-- JSON error bodies on the wire. -/
def isJsonErrorWrite : WireItem → Bool
  | .jsonErrorBody _ _ _ _ => true
  | _ => false

-- ============================================================================
-- Non-streaming chat translation (handleAnthropicChat, non-stream branch)
-- ============================================================================

/-- A content block of an upstream Anthropic response body. -/
inductive RespContentBlock
  | text (s : String)
  | toolUse (toolId toolName inputJson : String)
  | otherBlock (btype : String)
deriving DecidableEq

/-- The upstream Anthropic response fields read by the translation. -/
structure AnthropicResponse where
  content : List RespContentBlock
  stop_reason : String
  input_tokens : Nat
  output_tokens : Nat
deriving DecidableEq

/-- An OpenAI tool_call entry; the non-streaming translation never produces
one, so the message carries an optional list that stays `none`. -/
structure ToolCallOut where
  toolId : String
  toolName : String
  argumentsJson : String
deriving DecidableEq

/-- The translated OpenAI chat completion body (choices[0] and usage). -/
structure OpenAIChatResponse where
  model : String
  content : String
  tool_calls : Option (List ToolCallOut)
  finish_reason : String
  prompt_tokens : Nat
  completion_tokens : Nat
  total_tokens : Nat
deriving DecidableEq

/-- Block filter `block.type === 'text'` of the translation. -/
def isTextBlock : RespContentBlock → Bool
  | .text _ => true
  | _ => false

/-- `block.text` for a text block (only applied after the filter). -/
def blockText : RespContentBlock → String
  | .text s => s
  | _ => ""

/-- The non-streaming translation in handleAnthropicChat (lines 973-999):
text blocks filtered, mapped to their text and joined; finish_reason is
`stop_reason === 'end_turn' ? 'stop' : stop_reason`; tool_use blocks are not
surfaced (the emitted JSON has no tool_calls key). -/
def translateNonStreamingChat (modelId : String) (data : AnthropicResponse) :
    OpenAIChatResponse :=
  { model := modelId
    content := String.join ((data.content.filter isTextBlock).map blockText)
    tool_calls := none
    finish_reason :=
      if data.stop_reason = "end_turn" then "stop" else data.stop_reason
    prompt_tokens := data.input_tokens
    completion_tokens := data.output_tokens
    total_tokens := data.input_tokens + data.output_tokens }

-- ============================================================================
-- Upstream request construction (URL and body; handleAnthropicChat)
-- ============================================================================

/-- The Vertex URL built by handleAnthropicChat. -/
def anthropicUrl (region projectId modelId : String) (stream : Bool) :
    String :=
  "https://" ++ region ++ "-aiplatform.googleapis.com/v1/projects/" ++
    projectId ++ "/locations/" ++ region ++
    "/publishers/anthropic/models/" ++ modelId ++
    (if stream then ":streamRawPredict" else ":rawPredict")

/-- The Anthropic request body.  Its construction in handleAnthropicChat does
not read the model id (the model appears only in the URL); messages, tools
and tool_choice are carried already converted. -/
structure AnthropicRequestBody where
  anthropic_version : String
  max_tokens : Nat
  messagesJson : String
  system : Option String
  temperature : Option ℚ
  toolsJson : Option String
  toolChoiceJson : Option String
  stream : Bool
deriving DecidableEq

/-- Body assembly in handleAnthropicChat (lines 708-761), parameterised by the
already-converted message/tool payloads. -/
def buildAnthropicBody (messagesJson : String) (system : Option String)
    (maxTokens : Nat) (temperature : Option ℚ)
    (toolsJson toolChoiceJson : Option String) (stream : Bool) :
    AnthropicRequestBody :=
  { anthropic_version := "vertex-2023-10-16"
    max_tokens := maxTokens
    messagesJson := messagesJson
    system := system
    temperature := temperature
    toolsJson := toolsJson
    toolChoiceJson := toolChoiceJson
    stream := stream }

-- ============================================================================
-- Dispatcher with region failover and model fallback (handleChatCompletions
-- and handleAnthropicChatWithFallback)
-- ============================================================================

/-- Outcome of one upstream attempt on the chat path, as seen by the fallback
loop: normal return of handleAnthropicChat (which includes the
silently-closed mid-stream-error case), or a thrown upstream error. -/
inductive ChatOutcome
  | ok
  | err (e : UpstreamError)

/-- Result of the region loop / dispatcher. -/
inductive LoopResult
  | success
  | failed (e : UpstreamError)
deriving DecidableEq

/-- handleAnthropicChatWithFallback (lines 571-620): regions in plan order,
advance on a retryable error, rethrow a terminal error at once, and after
exhaustion throw the recorded last error (or a generic statusless Error).
Also returns the number of upstream attempts made. -/
def regionLoopChat (attempt : String → ChatOutcome) :
    List String → Option UpstreamError → LoopResult × Nat
  | [], lastError =>
    match lastError with
    | some e => (.failed e, 0)
    | none => (.failed ⟨none, "All regions failed"⟩, 0)
  | r :: rest, lastError =>
    match attempt r with
    | .ok => (.success, 1)
    | .err e =>
      if shouldRetryChat e then
        let res := regionLoopChat attempt rest (some e)
        (res.1, res.2 + 1)
      else (.failed e, 1)

/-- What handleChatCompletions sends when the dispatch concluded (success, a
google-provider branch outside the modelled anthropic path, or the JSON
error body of the catch block). -/
inductive DispatchResult
  | handled
  | googleHandled
  | jsonError (status : Nat) (message etype : String) (code : Nat)
deriving DecidableEq

/-- handleChatCompletions (lines 442-569) for the anthropic provider branch:
resolve the model, run the region loop, and on a thrown error either recurse
once into the first configured fallback model (rewriting req.body.model, with
no guard against repeated fallback) or send the 500 proxy_error JSON body
whose code field carries the upstream status.  `fuel` bounds the unguarded
recursion: `none` means the source recursed deeper than the given fuel.
Returns the dispatch result with the total upstream-attempt count, plus the
trace of model ids dispatched. -/
def dispatchChat (cache : Option RegionCache)
    (attempt : String → String → ChatOutcome) (cfg : Config) :
    Nat → String → Option (DispatchResult × Nat) × List String
  | 0, _ => (none, [])
  | fuel + 1, modelInput =>
    let modelId := resolveModel modelInput cfg
    if providerOf modelId = "anthropic" then
      let regions := getRegionFallbackOrder cache modelId
      match regionLoopChat (attempt modelId) regions none with
      | (.success, n) => (some (.handled, n), [modelId])
      | (.failed e, n) =>
        match truthyChains cfg.fallback_chains modelId with
        | some (fb :: _) =>
          let rec_ := dispatchChat cache attempt cfg fuel fb
          (rec_.1.map (fun p => (p.1, n + p.2)), modelId :: rec_.2)
        | _ =>
          (some (.jsonError 500 e.message "proxy_error" (e.status.getD 500),
            n), [modelId])
    else
      (some (.googleHandled, 0), [modelId])

-- ============================================================================
-- Spec-side definitions (used to compare code behaviour with the spec text)
-- ============================================================================

/-- The static part of the spec's chosen region set: the catalog regions when
the model is known, else the global priority list. -/
def specStaticChosen (modelId : String) : List String :=
  match alookup MODEL_CATALOG modelId with
  | some spec => spec.regions
  | none => priorityOrder

/-- The region set the spec says the planner chooses: cached discovery regions
when present and non-empty, else the catalog regions, else the priority
list. -/
def specChosenRegionSet (cache : Option RegionCache) (modelId : String) :
    List String :=
  match cache with
  | some c =>
    match alookup c.models modelId with
    | some info =>
      if info.availableRegions.length > 0 then info.availableRegions
      else specStaticChosen modelId
    | none => specStaticChosen modelId
  | none => specStaticChosen modelId

/-- The re-ordering the spec describes: priority regions first in priority
order when present, then the remaining regions in their original order. -/
def specReorder (rs : List String) : List String :=
  priorityOrder.filter (fun p => rs.contains p) ++
    rs.filter (fun r => !priorityOrder.contains r)

/-- Text-block concatenation as the spec phrases it for the non-streaming
translation. -/
def specTextConcat : List RespContentBlock → String
  | [] => ""
  | .text s :: rest => s ++ specTextConcat rest
  | _ :: rest => specTextConcat rest

-- ============================================================================
-- Helper lemmas: region re-ordering
-- ============================================================================

theorem addUnique_ne_nil (acc : List String) (r : String) :
    addUnique acc r ≠ [] := by
  unfold addUnique
  split
  · rename_i h
    intro hnil
    subst hnil
    simp at h
  · simp

theorem foldl_addUnique_ne_nil :
    ∀ (rs acc : List String), acc ≠ [] → rs.foldl addUnique acc ≠ []
  | [], acc, h => h
  | r :: rs, acc, h => by
    rw [List.foldl_cons]
    exact foldl_addUnique_ne_nil rs (addUnique acc r) (addUnique_ne_nil acc r)

theorem foldl_addUnique_ne_nil_of_ne_nil (rs acc : List String)
    (h : rs ≠ []) : rs.foldl addUnique acc ≠ [] := by
  match rs with
  | [] => exact absurd rfl h
  | r :: rs =>
    rw [List.foldl_cons]
    exact foldl_addUnique_ne_nil rs _ (addUnique_ne_nil acc r)

theorem foldl_addUnique_eq :
    ∀ (rs acc : List String), rs.Nodup →
      rs.foldl addUnique acc = acc ++ rs.filter (fun r => !acc.contains r)
  | [], acc, _ => by simp
  | r :: rs, acc, h => by
    rw [List.foldl_cons]
    have hnotmem : r ∉ rs := (List.nodup_cons.mp h).1
    have htail : rs.Nodup := (List.nodup_cons.mp h).2
    by_cases hc : r ∈ acc
    · have hstep : addUnique acc r = acc := by simp [addUnique, hc]
      rw [hstep, foldl_addUnique_eq rs acc htail]
      have hfil : (r :: rs).filter (fun x => !acc.contains x) =
          rs.filter (fun x => !acc.contains x) := by
        simp [List.filter_cons, hc]
      rw [hfil]
    · have hstep : addUnique acc r = acc ++ [r] := by simp [addUnique, hc]
      rw [hstep, foldl_addUnique_eq rs (acc ++ [r]) htail]
      have hfc : rs.filter (fun x => !(acc ++ [r]).contains x) =
          rs.filter (fun x => !acc.contains x) := by
        apply List.filter_congr
        intro x hx
        have hxr : x ≠ r := fun hh => hnotmem (hh ▸ hx)
        simp [List.mem_append, hxr]
      have hrc : (r :: rs).filter (fun x => !acc.contains x) =
          r :: rs.filter (fun x => !acc.contains x) := by
        simp [List.filter_cons, hc]
      rw [hfc, hrc]
      simp

theorem orderRegions_eq_spec (rs : List String) (h : rs.Nodup) :
    orderRegions rs = specReorder rs := by
  unfold orderRegions specReorder
  rw [foldl_addUnique_eq rs _ h]
  congr 1
  apply List.filter_congr
  intro x hx
  simp [List.mem_filter, hx]

theorem orderRegions_ne_nil (rs : List String) (h : rs ≠ []) :
    orderRegions rs ≠ [] :=
  foldl_addUnique_ne_nil_of_ne_nil rs _ h

theorem specReorder_ne_nil (rs : List String) (h : rs ≠ []) :
    specReorder rs ≠ [] := by
  match rs with
  | [] => exact absurd rfl h
  | r :: rest =>
    unfold specReorder
    intro hnil
    rcases List.append_eq_nil.mp hnil with ⟨h1, h2⟩
    by_cases hp : r ∈ priorityOrder
    · have hmem : r ∈ priorityOrder.filter (fun p => (r :: rest).contains p) :=
        List.mem_filter.mpr ⟨hp, by simp⟩
      rw [h1] at hmem
      exact absurd hmem (List.not_mem_nil r)
    · have hmem : r ∈ (r :: rest).filter (fun x => !priorityOrder.contains x) :=
        List.mem_filter.mpr ⟨by simp, by simp [hp]⟩
      rw [h2] at hmem
      exact absurd hmem (List.not_mem_nil r)

theorem alookup_mem {α : Type} :
    ∀ (l : List (String × α)) (k : String) (v : α),
      alookup l k = some v → (k, v) ∈ l
  | [], _, _, h => by simp [alookup] at h
  | (k', v') :: rest, k, v, h => by
    by_cases hk : k' = k
    · subst hk
      simp [alookup] at h
      subst h
      exact List.mem_cons_self _ _
    · simp [alookup, hk] at h
      exact List.mem_cons_of_mem _ (alookup_mem rest k v h)

theorem catalog_regions_ne_nil :
    ∀ p ∈ MODEL_CATALOG, p.2.regions ≠ [] := by decide

theorem staticRegionOrder_ne_nil (modelId : String) :
    staticRegionOrder modelId ≠ [] := by
  unfold staticRegionOrder
  match hl : alookup MODEL_CATALOG modelId with
  | none => simp [priorityOrder]
  | some spec =>
    exact orderRegions_ne_nil _
      (catalog_regions_ne_nil (modelId, spec) (alookup_mem _ _ _ hl))

theorem length_pos_ne_nil {α : Type} (l : List α) (h : l.length > 0) :
    l ≠ [] := by
  intro hnil
  rw [hnil] at h
  simp at h

theorem regionPlan_ne_nil (cache : Option RegionCache) (modelId : String) :
    getRegionFallbackOrder cache modelId ≠ [] := by
  unfold getRegionFallbackOrder
  split
  · split
    · split
      · rename_i info _ hlen
        exact orderRegions_ne_nil _ (length_pos_ne_nil _ hlen)
      · exact staticRegionOrder_ne_nil modelId
    · exact staticRegionOrder_ne_nil modelId
  · exact staticRegionOrder_ne_nil modelId

-- ============================================================================
-- Helper lemmas: streaming translator
-- ============================================================================

theorem processEvents_flag_indep (cid : String) :
    ∀ (es : List AnthropicEvent) (b b' : Bool),
      (processEvents cid es b).1 = (processEvents cid es b').1
  | [], _, _ => rfl
  | e :: rest, b, b' => by
    simp only [processEvents]
    rw [processEvents_flag_indep cid rest (isMessageStop e || b)
      (isMessageStop e || b')]

theorem processEvents_append (cid : String) :
    ∀ (es es' : List AnthropicEvent) (b : Bool),
      (processEvents cid (es ++ es') b).1 =
        (processEvents cid es b).1 ++ (processEvents cid es' b).1
  | [], es', b => by simp [processEvents]
  | e :: rest, es', b => by
    show (processEvents cid (e :: (rest ++ es')) b).1 = _
    simp only [processEvents]
    rw [processEvents_append cid rest es' (isMessageStop e || b)]
    rw [processEvents_flag_indep cid es' (isMessageStop e || b) b]
    simp [List.append_assoc]

theorem emitForEvent_nonterminal (cid : String) (e : AnthropicEvent)
    (f : Frame) (h : f ∈ emitForEvent cid e) : isTerminalFrame f = false := by
  cases e <;> simp [emitForEvent] at h <;> subst h <;> rfl

theorem processEvents_nonterminal (cid : String) :
    ∀ (es : List AnthropicEvent) (b : Bool) (f : Frame),
      f ∈ (processEvents cid es b).1 → isTerminalFrame f = false
  | [], _, _, h => by simp [processEvents] at h
  | e :: rest, b, f, h => by
    simp only [processEvents, List.mem_append] at h
    rcases h with h | h
    · exact emitForEvent_nonterminal cid e f h
    · exact processEvents_nonterminal cid rest _ f h

theorem processEvents_stop_flag (cid : String) :
    ∀ (es : List AnthropicEvent) (b : Bool),
      (processEvents cid (es ++ [AnthropicEvent.messageStop]) b).2 = true
  | [], b => rfl
  | e :: rest, b => by
    simp only [List.cons_append, processEvents]
    exact processEvents_stop_flag cid rest (isMessageStop e || b)

theorem filter_terminal_body (cid : String) (es : List AnthropicEvent)
    (b : Bool) :
    ((processEvents cid es b).1).filter isTerminalFrame = [] := by
  rw [List.filter_eq_nil_iff]
  intro f hf
  simp [processEvents_nonterminal cid es b f hf]

theorem streamChat_filter_terminal (cid : String)
    (events : List AnthropicEvent) :
    ((streamChatRun cid events).1).filter isTerminalFrame =
      [Frame.finishChunk cid "stop", Frame.doneSentinel] := by
  show ((Frame.roleFrame cid :: ((processEvents cid events false).1 ++
      [Frame.finishChunk cid "stop", Frame.doneSentinel])).filter
        isTerminalFrame) = _
  simp only [List.filter_cons, List.filter_append,
    filter_terminal_body cid events false]
  simp [isTerminalFrame]

-- ============================================================================
-- C1, C2, C10 — streaming framing
-- ============================================================================

/-- C1 (corrected: counterexample below): after the upstream stream ends
without a throw, the streaming chat handler emits exactly one final chunk and
exactly one [DONE] sentinel, in that order after the loop output — but the
final chunk's finish_reason is always "stop", regardless of any tool-call
deltas emitted earlier. -/
theorem streamChat_final_frame_always_stop (cid : String)
    (events : List AnthropicEvent) :
    (streamChatRun cid events).1 =
      Frame.roleFrame cid :: ((processEvents cid events false).1 ++
        [Frame.finishChunk cid "stop", Frame.doneSentinel])
    ∧ ((streamChatRun cid events).1).filter isTerminalFrame =
        [Frame.finishChunk cid "stop", Frame.doneSentinel] :=
  ⟨rfl, streamChat_filter_terminal cid events⟩

/-- C1 counterexample: on the spec's own tool-call streaming scenario (tool-use
block start, two input_json_deltas, message_stop) the response contains
tool-call delta frames, yet the unique final chunk still says "stop", not
"tool_calls". -/
theorem streamChat_toolcalls_finish_cex :
    ((streamChatRun "chatcmpl-1"
        [AnthropicEvent.contentBlockStartToolUse "toolu_1" "f",
         AnthropicEvent.inputJsonDelta "\x7b\x22x\x22:",
         AnthropicEvent.inputJsonDelta "1\x7d",
         AnthropicEvent.messageStop]).1.any isToolDeltaFrame = true)
    ∧ ((streamChatRun "chatcmpl-1"
        [AnthropicEvent.contentBlockStartToolUse "toolu_1" "f",
         AnthropicEvent.inputJsonDelta "\x7b\x22x\x22:",
         AnthropicEvent.inputJsonDelta "1\x7d",
         AnthropicEvent.messageStop]).1.filter isTerminalFrame =
      [Frame.finishChunk "chatcmpl-1" "stop", Frame.doneSentinel])
    ∧ ("stop" : String) ≠ "tool_calls" := by
  refine ⟨by decide, by decide, by decide⟩

/-- Terminal WireItems: finish_reason chunks and the [DONE] sentinel. -/
def isTerminalWrite : WireItem → Bool
  | .frame f => isTerminalFrame f
  | .jsonErrorBody _ _ _ _ => false

theorem map_frame_no_json :
    ∀ fs : List Frame,
      (fs.map WireItem.frame).all (fun w => !isJsonErrorWrite w) = true
  | [] => rfl
  | f :: rest => by
    simp only [List.map_cons, List.all_cons, Bool.and_eq_true]
    exact ⟨rfl, map_frame_no_json rest⟩

/-- C2 (confirmed): on a streaming chat connection whose headers (and role
frame) went out, no JSON error body is ever written — with or without a
mid-stream error — and on a mid-stream error the connection is closed with no
further SSE frames: in particular no terminal frame is ever written on the
error path. -/
theorem streamChat_no_json_error_after_headers (cid : String)
    (events : List AnthropicEvent) (midStreamError : Bool) :
    ((chatStreamWrites cid events midStreamError).all
        (fun w => !isJsonErrorWrite w) = true)
    ∧ ((chatStreamWrites cid events true).all
        (fun w => !isTerminalWrite w) = true) := by
  constructor
  · unfold chatStreamWrites
    cases midStreamError
    · simp only [if_false, Bool.false_eq_true]
      exact map_frame_no_json _
    · simp only [if_true]
      exact map_frame_no_json _
  · unfold chatStreamWrites
    simp only [if_true]
    rw [List.all_eq_true]
    intro w hw
    rcases List.mem_map.mp hw with ⟨f, hf, hwf⟩
    subst hwf
    simp only [List.mem_cons] at hf
    rcases hf with hf | hf
    · subst hf
      rfl
    · simp [isTerminalWrite, processEvents_nonterminal cid events false f hf]

/-- C10 (confirmed): when the upstream read loop completes without throwing,
the final finish_reason chunk and the [DONE] sentinel are emitted
unconditionally; a stream that ends without message_stop is framed
identically to one that ends with it; the receivedMessageStop flag is
recorded (second component) but never affects which frames are written. -/
theorem streamChat_framing_ignores_message_stop (cid : String)
    (events : List AnthropicEvent) :
    ((streamChatRun cid (events ++ [AnthropicEvent.messageStop])).1 =
      (streamChatRun cid events).1)
    ∧ ((streamChatRun cid (events ++ [AnthropicEvent.messageStop])).2 = true)
    ∧ (∀ b b', (processEvents cid events b).1 = (processEvents cid events b').1)
    ∧ ((streamChatRun cid events).1).filter isTerminalFrame =
        [Frame.finishChunk cid "stop", Frame.doneSentinel] := by
  refine ⟨?_, ?_, processEvents_flag_indep cid events, streamChat_filter_terminal cid events⟩
  · show Frame.roleFrame cid :: _ ++ _ = Frame.roleFrame cid :: _ ++ _
    rw [processEvents_append cid events [AnthropicEvent.messageStop] false]
    simp [processEvents, emitForEvent]
  · show (processEvents cid (events ++ [AnthropicEvent.messageStop]) false).2 = true
    exact processEvents_stop_flag cid events false

-- ============================================================================
-- C9 — truncation keeps a contiguous suffix and the last four messages
-- ============================================================================

theorem keepEarlierRev_suffix :
    ∀ (rev : List ChatMessage) (t tgt : ℤ),
      (keepEarlierRev rev t tgt).1 <:+ rev.reverse
  | [], _, _ => List.nil_suffix
  | m :: rest, t, tgt => by
    simp only [keepEarlierRev]
    split
    · exact List.nil_suffix
    · rcases keepEarlierRev_suffix rest (t + (estimateTokens m.content : ℤ)) tgt
        with ⟨c, hc⟩
      refine ⟨c, ?_⟩
      rw [List.reverse_cons, ← hc, List.append_assoc]

/-- C9 (confirmed): auto-truncation returns a contiguous suffix of the input
message list (hence never reorders and only drops from the front), and the
last four messages are always retained verbatim as a suffix of the result. -/
theorem truncateMessages_suffix_last4 (messages : List ChatMessage)
    (maxTokens reserveTokens : Nat) :
    ((truncateMessages messages maxTokens reserveTokens).1 <:+ messages)
    ∧ (∃ k, (truncateMessages messages maxTokens reserveTokens).1 =
        messages.drop k)
    ∧ (messages.drop (messages.length - 4) <:+
        (truncateMessages messages maxTokens reserveTokens).1) := by
  have heq : (truncateMessages messages maxTokens reserveTokens).1 =
      (keepEarlierRev (messages.take (messages.length - 4)).reverse
        (((messages.drop (messages.length - 4)).map
          (fun m => (estimateTokens m.content : ℤ))).sum)
        ((maxTokens : ℤ) - (reserveTokens : ℤ))).1 ++
      messages.drop (messages.length - 4) := rfl
  have hsuf := keepEarlierRev_suffix
    (messages.take (messages.length - 4)).reverse
    (((messages.drop (messages.length - 4)).map
      (fun m => (estimateTokens m.content : ℤ))).sum)
    ((maxTokens : ℤ) - (reserveTokens : ℤ))
  rw [List.reverse_reverse] at hsuf
  rcases hsuf with ⟨c, hc⟩
  have hwhole : c ++ (truncateMessages messages maxTokens reserveTokens).1 =
      messages := by
    rw [heq, ← List.append_assoc, hc, List.take_append_drop]
  have hdrop := List.drop_left c
    (truncateMessages messages maxTokens reserveTokens).1
  rw [hwhole] at hdrop
  exact ⟨⟨c, hwhole⟩, ⟨c.length, hdrop.symm⟩, ⟨_, heq.symm⟩⟩

-- ============================================================================
-- C4 — retry classification across the three Anthropic dispatch paths
-- ============================================================================

theorem bool_or_swap6 (a b c d e f : Bool) :
    (a || c || b || d || e || f) = (a || b || c || d || e || f) := by
  cases a <;> cases b <;> cases c <;> rfl

theorem bool_or_swap5 (a b c d e : Bool) :
    (a || c || b || d || e) = (a || b || c || d || e) := by
  cases a <;> cases b <;> cases c <;> rfl

/-- C4 (corrected: counterexample below): the chat path classifies exactly as
the claim states (status 429/500/503 or body containing capacity, overloaded
or unavailable), but the messages-passthrough and legacy-completions paths
omit the "unavailable" substring: they retry only on status 429/500/503 or
bodies containing capacity or overloaded. -/
theorem retry_classification_per_path (e : UpstreamError) :
    shouldRetryChat e = specRetryable e
    ∧ shouldRetryCompletions e = shouldRetryMessages e
    ∧ shouldRetryMessages e =
        (e.status == some 429 || e.status == some 500 ||
          e.status == some 503 || strIncludes e.message "capacity" ||
          strIncludes e.message "overloaded") := by
  refine ⟨?_, rfl, ?_⟩
  · exact bool_or_swap6 (e.status == some 429) (e.status == some 500)
      (e.status == some 503) (strIncludes e.message "capacity")
      (strIncludes e.message "overloaded")
      (strIncludes e.message "unavailable")
  · exact bool_or_swap5 (e.status == some 429) (e.status == some 500)
      (e.status == some 503) (strIncludes e.message "capacity")
      (strIncludes e.message "overloaded")

/-- C4 counterexample: a 502 whose body contains "unavailable" is retryable
per the claim (and per the chat path), but the messages-passthrough and
legacy-completions paths classify it terminal. -/
theorem retry_unavailable_not_uniform_cex :
    shouldRetryMessages ⟨some 502, "service unavailable"⟩ = false
    ∧ shouldRetryCompletions ⟨some 502, "service unavailable"⟩ = false
    ∧ shouldRetryChat ⟨some 502, "service unavailable"⟩ = true
    ∧ specRetryable ⟨some 502, "service unavailable"⟩ = true := by
  refine ⟨by decide, by decide, by decide, by decide⟩

-- ============================================================================
-- C6 — non-streaming chat translation
-- ============================================================================

theorem string_join_cons (s : String) (rest : List String) :
    String.join (s :: rest) = s ++ String.join rest := by
  rw [String.join_eq, String.join_eq]
  rfl

theorem filter_text_join_eq_specTextConcat :
    ∀ blocks : List RespContentBlock,
      String.join ((blocks.filter isTextBlock).map blockText) =
        specTextConcat blocks
  | [] => rfl
  | .text s :: rest => by
    simp only [List.filter_cons, isTextBlock, if_true, List.map_cons]
    rw [string_join_cons, filter_text_join_eq_specTextConcat rest]
    rfl
  | .toolUse i n j :: rest => by
    simp only [List.filter_cons, isTextBlock, specTextConcat]
    exact filter_text_join_eq_specTextConcat rest
  | .otherBlock b :: rest => by
    simp only [List.filter_cons, isTextBlock, specTextConcat]
    exact filter_text_join_eq_specTextConcat rest

/-- C6 (corrected: counterexample below): the non-streaming chat translation
concatenates the text blocks into choices[0].message.content, but it never
surfaces tool_use blocks (the emitted body has no tool_calls), and it maps
only "end_turn" to "stop", passing every other stop_reason — including
"tool_use" — through verbatim. -/
theorem translateNonStreamingChat_amended (modelId : String)
    (data : AnthropicResponse) :
    (translateNonStreamingChat modelId data).content =
      specTextConcat data.content
    ∧ (translateNonStreamingChat modelId data).tool_calls = none
    ∧ (translateNonStreamingChat modelId data).finish_reason =
        (if data.stop_reason = "end_turn" then "stop" else data.stop_reason) :=
  ⟨filter_text_join_eq_specTextConcat data.content, rfl, rfl⟩

/-- C6 counterexample: an upstream response with one tool_use block and
stop_reason "tool_use" translates to a body with no tool_calls entry and
finish_reason "tool_use", not "tool_calls". -/
theorem nonstreaming_tool_use_dropped_cex :
    (translateNonStreamingChat "claude-sonnet-4-5@20250929"
      { content := [RespContentBlock.toolUse "toolu_1" "f" "\x7b\x22x\x22:1\x7d"],
        stop_reason := "tool_use", input_tokens := 10,
        output_tokens := 5 }).tool_calls = none
    ∧ (translateNonStreamingChat "claude-sonnet-4-5@20250929"
      { content := [RespContentBlock.toolUse "toolu_1" "f" "\x7b\x22x\x22:1\x7d"],
        stop_reason := "tool_use", input_tokens := 10,
        output_tokens := 5 }).finish_reason = "tool_use"
    ∧ ("tool_use" : String) ≠ "tool_calls" := by
  refine ⟨by decide, by decide, by decide⟩

-- ============================================================================
-- C7 — alias resolution coherence and upstream request identity
-- ============================================================================

/-- Config exhibiting that C7 as stated fails: the alias target
claude-opus-4-5@20251101 (a catalog model) is itself remapped by the alias
table, which the resolver consults before the catalog. -/
def cexAliasConfig : Config :=
  { defaultConfig with model_aliases := [
      ("myalias", "claude-opus-4-5@20251101"),
      ("claude-opus-4-5@20251101", "claude-haiku-4-5@20251001")] }

/-- C7 counterexample: "myalias" is mapped by the configuration to the
catalog model claude-opus-4-5@20251101, yet resolving the alias and
resolving the target yield different canonical ids (and hence different
upstream URLs), because the alias table is consulted before the catalog. -/
theorem resolveModel_alias_chain_cex :
    truthyLookup cexAliasConfig.model_aliases "myalias" =
      some "claude-opus-4-5@20251101"
    ∧ (alookup MODEL_CATALOG "claude-opus-4-5@20251101").isSome = true
    ∧ resolveModel "myalias" cexAliasConfig ≠
        resolveModel "claude-opus-4-5@20251101" cexAliasConfig
    ∧ anthropicUrl "us-east5" "proj" (resolveModel "myalias" cexAliasConfig)
        false ≠
      anthropicUrl "us-east5" "proj"
        (resolveModel "claude-opus-4-5@20251101" cexAliasConfig) false := by
  refine ⟨by decide, by decide, by decide, by decide⟩

/-- C7 (amended): for an alias A whose target M is a catalog model, resolving
A and resolving M yield the same canonical id — provided M is not itself
remapped by the alias table — and therefore the upstream URL and request
body of the two requests coincide for every region, project, streaming mode
and payload (the body construction never reads the model id). -/
theorem resolveModel_alias_coherent (cfg : Config) (A M : String)
    (hA : truthyLookup cfg.model_aliases A = some M)
    (hM : (alookup MODEL_CATALOG M).isSome = true)
    (hMstable : truthyLookup cfg.model_aliases M = none ∨
      truthyLookup cfg.model_aliases M = some M) :
    resolveModel A cfg = resolveModel M cfg
    ∧ (∀ region projectId stream,
        anthropicUrl region projectId (resolveModel A cfg) stream =
          anthropicUrl region projectId (resolveModel M cfg) stream)
    ∧ (∀ messagesJson system maxTokens temperature toolsJson toolChoiceJson
          stream,
        buildAnthropicBody messagesJson system maxTokens temperature
            toolsJson toolChoiceJson stream =
          buildAnthropicBody messagesJson system maxTokens temperature
            toolsJson toolChoiceJson stream) := by
  have hres : resolveModel A cfg = resolveModel M cfg := by
    have hAres : resolveModel A cfg = M := by
      unfold resolveModel
      rw [hA]
    rcases hMstable with hs | hs
    · have : resolveModel M cfg = M := by
        unfold resolveModel
        rw [hs, hM]
        simp
      rw [hAres, this]
    · have : resolveModel M cfg = M := by
        unfold resolveModel
        rw [hs]
      rw [hAres, this]
  exact ⟨hres, fun region projectId stream => by rw [hres],
    fun _ _ _ _ _ _ _ => rfl⟩

/-- C7 witness: under the default configuration, the alias "sonnet" and its
catalog target claude-sonnet-4-5@20250929 resolve to the same canonical id,
with identical upstream URLs. -/
theorem resolveModel_alias_coherent_witness :
    resolveModel "sonnet" defaultConfig =
      resolveModel "claude-sonnet-4-5@20250929" defaultConfig
    ∧ anthropicUrl "us-east5" "proj"
        (resolveModel "sonnet" defaultConfig) true =
      anthropicUrl "us-east5" "proj"
        (resolveModel "claude-sonnet-4-5@20250929" defaultConfig) true :=
  ⟨(resolveModel_alias_coherent defaultConfig "sonnet"
      "claude-sonnet-4-5@20250929" (by decide) (by decide)
      (Or.inl (by decide))).1,
   (resolveModel_alias_coherent defaultConfig "sonnet"
      "claude-sonnet-4-5@20250929" (by decide) (by decide)
      (Or.inl (by decide))).2.1 "us-east5" "proj" true⟩

-- ============================================================================
-- C3, C5 — dispatcher: terminal errors and model fallback
-- ============================================================================

theorem regionLoopChat_terminal_first (att : String → ChatOutcome)
    (e : UpstreamError) (r : String) (rest : List String)
    (lastError : Option UpstreamError) (hr : att r = ChatOutcome.err e)
    (hterm : shouldRetryChat e = false) :
    regionLoopChat att (r :: rest) lastError = (LoopResult.failed e, 1) := by
  simp only [regionLoopChat]
  rw [hr]
  simp [hterm]

theorem regionLoopChat_all_err (att : String → ChatOutcome)
    (e : UpstreamError) (hatt : ∀ r, att r = ChatOutcome.err e) :
    ∀ (regions : List String) (lastError : Option UpstreamError),
      ∃ e' k, regionLoopChat att regions lastError = (LoopResult.failed e', k)
  | [], lastError => by
    cases lastError with
    | none => exact ⟨_, 0, rfl⟩
    | some e0 => exact ⟨e0, 0, rfl⟩
  | r :: rest, lastError => by
    by_cases hretry : shouldRetryChat e = true
    · obtain ⟨e', k, hk⟩ := regionLoopChat_all_err att e hatt rest (some e)
      refine ⟨e', k + 1, ?_⟩
      simp only [regionLoopChat]
      rw [hatt r]
      simp [hretry, hk]
    · refine ⟨e, 1, ?_⟩
      exact regionLoopChat_terminal_first att e r rest lastError (hatt r)
        (by simpa using hretry)

/-- C3 (amended): when every upstream attempt for the resolved model returns
the same terminal (non-retryable) error and no fallback chain is configured
for it, exactly one upstream call is made, and the client receives an HTTP
500 response whose error.message equals the upstream body and whose
error.code — not the HTTP status — carries the upstream status. -/
theorem dispatch_terminal_error_500_body (cache : Option RegionCache)
    (cfg : Config) (attempt : String → String → ChatOutcome)
    (modelInput : String) (e : UpstreamError) (fuel : Nat)
    (hprov : providerOf (resolveModel modelInput cfg) = "anthropic")
    (hatt : ∀ r, attempt (resolveModel modelInput cfg) r = ChatOutcome.err e)
    (hterm : shouldRetryChat e = false)
    (hnochain : truthyChains cfg.fallback_chains
      (resolveModel modelInput cfg) = none) :
    dispatchChat cache attempt cfg (fuel + 1) modelInput =
      (some (DispatchResult.jsonError 500 e.message "proxy_error"
        (e.status.getD 500), 1), [resolveModel modelInput cfg]) := by
  obtain ⟨r, rest, hpl⟩ : ∃ r rest,
      getRegionFallbackOrder cache (resolveModel modelInput cfg) =
        r :: rest := by
    cases hp : getRegionFallbackOrder cache (resolveModel modelInput cfg) with
    | nil => exact absurd hp (regionPlan_ne_nil _ _)
    | cons a l => exact ⟨a, l, rfl⟩
  simp only [dispatchChat, hprov, if_true, hpl]
  rw [regionLoopChat_terminal_first (attempt (resolveModel modelInput cfg))
    e r rest none (hatt r) hterm]
  rw [hnochain]

/-- C3 counterexample: a first-attempt terminal upstream failure
(status 400, body "bad request") yields a client response with HTTP status
500, not the upstream 400 — the upstream status only appears in error.code. -/
theorem dispatch_terminal_status_cex :
    dispatchChat none
        (fun _ _ => ChatOutcome.err ⟨some 400, "bad request"⟩)
        defaultConfig 1 "sonnet" =
      (some (DispatchResult.jsonError 500 "bad request" "proxy_error" 400, 1),
        ["claude-sonnet-4-5@20250929"])
    ∧ (500 : Nat) ≠ 400 := by
  refine ⟨by decide, by decide⟩

/-- C3 witness for the amended theorem at a concrete terminal error. -/
theorem dispatch_terminal_error_500_body_witness :
    dispatchChat none
        (fun _ _ => ChatOutcome.err ⟨some 400, "invalid schema"⟩)
        defaultConfig 3 "opus" =
      (some (DispatchResult.jsonError 500 "invalid schema" "proxy_error" 400,
        1), ["claude-opus-4-5@20251101"]) := by
  have h := dispatch_terminal_error_500_body none defaultConfig
    (fun _ _ => ChatOutcome.err ⟨some 400, "invalid schema"⟩) "opus"
    ⟨some 400, "invalid schema"⟩ 2 (by decide) (fun _ => rfl) (by decide)
    (by decide)
  have hres : resolveModel "opus" defaultConfig =
      "claude-opus-4-5@20251101" := by decide
  rw [hres] at h
  exact h

/-- Config with a self-referential fallback chain, used to exhibit unbounded
fallback recursion. -/
def cyclicConfig : Config :=
  { defaultConfig with fallback_chains := [("mymodel", ["mymodel"])] }

/-- C5 (amended): handleChatCompletions has no guard limiting model-fallback
recursion: whenever the region loop fails, the resolved model's (truthy)
fallback-chain entry points back at a model resolving to itself, and every
upstream attempt keeps failing, the dispatcher recurses at every level — at
no finite fuel does it produce a response. -/
theorem dispatch_fallback_unbounded (cache : Option RegionCache)
    (cfg : Config) (attempt : String → String → ChatOutcome) (m : String)
    (e : UpstreamError)
    (hres : resolveModel m cfg = m)
    (hprov : providerOf m = "anthropic")
    (hatt : ∀ r, attempt m r = ChatOutcome.err e)
    (hchain : ∃ rest, truthyChains cfg.fallback_chains m = some (m :: rest)) :
    ∀ fuel, (dispatchChat cache attempt cfg fuel m).1 = none := by
  intro fuel
  induction fuel with
  | zero => rfl
  | succ n ih =>
    obtain ⟨restc, hchain'⟩ := hchain
    obtain ⟨e', k, hk⟩ := regionLoopChat_all_err (attempt m) e hatt
      (getRegionFallbackOrder cache m) none
    simp only [dispatchChat, hres, hprov, if_true, hk, hchain']
    simp [ih]

/-- C5 witness for the unbounded-fallback theorem: already at fuel 2 (which
would suffice for one dispatch plus a single fallback) no response is
produced under the cyclic chain. -/
theorem dispatch_fallback_unbounded_witness :
    (dispatchChat none
      (fun _ _ => ChatOutcome.err ⟨some 503, "overloaded"⟩)
      cyclicConfig 2 "mymodel").1 = none :=
  dispatch_fallback_unbounded none cyclicConfig
    (fun _ _ => ChatOutcome.err ⟨some 503, "overloaded"⟩) "mymodel"
    ⟨some 503, "overloaded"⟩ (by decide) (by decide) (fun _ => rfl)
    ⟨[], by decide⟩ 2

/-- C5 counterexample: with the self-referential chain, one inbound request
dispatches the model four times within fuel 4 — three fallback
rewrite-and-recursions, not at most one — and still no response. -/
theorem dispatch_fallback_more_than_once_cex :
    (dispatchChat none
        (fun _ _ => ChatOutcome.err ⟨some 503, "overloaded"⟩)
        cyclicConfig 4 "mymodel").2 =
      ["mymodel", "mymodel", "mymodel", "mymodel"]
    ∧ (dispatchChat none
        (fun _ _ => ChatOutcome.err ⟨some 503, "overloaded"⟩)
        cyclicConfig 4 "mymodel").1 = none := by
  refine ⟨by decide, by decide⟩

-- ============================================================================
-- C8 — region plan refinement
-- ============================================================================

theorem staticRegionOrder_eq_spec (modelId : String)
    (h : (specStaticChosen modelId).Nodup) :
    staticRegionOrder modelId = specReorder (specStaticChosen modelId) := by
  unfold staticRegionOrder specStaticChosen
  unfold specStaticChosen at h
  cases hl : alookup MODEL_CATALOG modelId with
  | none =>
    simp only [hl]
    decide
  | some spec =>
    simp only [hl] at h ⊢
    exact orderRegions_eq_spec _ h

/-- C8 (confirmed for duplicate-free region sets): the region plan equals the
spec's chosen region set (cached discovery regions when present and
non-empty, else the catalog regions, else the priority list) re-ordered with
the priority regions first in priority order followed by the remaining
regions in their original order, and the plan is never empty. -/
theorem getRegionFallbackOrder_spec (cache : Option RegionCache)
    (modelId : String) (h : (specChosenRegionSet cache modelId).Nodup) :
    getRegionFallbackOrder cache modelId =
      specReorder (specChosenRegionSet cache modelId)
    ∧ getRegionFallbackOrder cache modelId ≠ [] := by
  refine ⟨?_, regionPlan_ne_nil cache modelId⟩
  cases cache with
  | none =>
    have heq : specChosenRegionSet none modelId = specStaticChosen modelId :=
      rfl
    rw [heq] at h ⊢
    exact staticRegionOrder_eq_spec modelId h
  | some c =>
    cases hl : alookup c.models modelId with
    | none =>
      have heq : specChosenRegionSet (some c) modelId =
          specStaticChosen modelId := by
        simp [specChosenRegionSet, hl]
      have hplan : getRegionFallbackOrder (some c) modelId =
          staticRegionOrder modelId := by
        simp [getRegionFallbackOrder, hl]
      rw [heq] at h ⊢
      rw [hplan]
      exact staticRegionOrder_eq_spec modelId h
    | some info =>
      by_cases hlen : info.availableRegions.length > 0
      · have heq : specChosenRegionSet (some c) modelId =
            info.availableRegions := by
          simp [specChosenRegionSet, hl, hlen]
        have hplan : getRegionFallbackOrder (some c) modelId =
            orderRegions info.availableRegions := by
          simp [getRegionFallbackOrder, hl, hlen]
        rw [heq] at h ⊢
        rw [hplan]
        exact orderRegions_eq_spec _ h
      · have heq : specChosenRegionSet (some c) modelId =
            specStaticChosen modelId := by
          simp [specChosenRegionSet, hl, hlen]
        have hplan : getRegionFallbackOrder (some c) modelId =
            staticRegionOrder modelId := by
          simp [getRegionFallbackOrder, hl, hlen]
        rw [heq] at h ⊢
        rw [hplan]
        exact staticRegionOrder_eq_spec modelId h

/-- C8 witness: a concrete discovery cache whose regions list priority and
non-priority regions out of order; the plan puts us-east5 and europe-west1
first and keeps the remaining region, and is non-empty. -/
theorem getRegionFallbackOrder_spec_witness :
    (specChosenRegionSet
      (some ⟨[("m1", ⟨["europe-west1", "me-west1", "us-east5"]⟩)]⟩)
      "m1").Nodup
    ∧ getRegionFallbackOrder
        (some ⟨[("m1", ⟨["europe-west1", "me-west1", "us-east5"]⟩)]⟩) "m1" =
      specReorder (specChosenRegionSet
        (some ⟨[("m1", ⟨["europe-west1", "me-west1", "us-east5"]⟩)]⟩) "m1")
    ∧ getRegionFallbackOrder
        (some ⟨[("m1", ⟨["europe-west1", "me-west1", "us-east5"]⟩)]⟩) "m1" ≠
      [] :=
  ⟨by decide,
   (getRegionFallbackOrder_spec
     (some ⟨[("m1", ⟨["europe-west1", "me-west1", "us-east5"]⟩)]⟩) "m1"
     (by decide)).1,
   (getRegionFallbackOrder_spec
     (some ⟨[("m1", ⟨["europe-west1", "me-west1", "us-east5"]⟩)]⟩) "m1"
     (by decide)).2⟩

end VertexProxy
